import Mathlib

/-!
Verification development for the medicine-expiry notification service
(`NotificationService` in the repository source).  The service is embedded
shallowly: the database (medicines, the latest notification-settings record,
the notification log) is explicit state, external channel outcomes (email
send, web-push send, log persistence) are an environment record, and thrown
JavaScript errors are modelled with `Except String`.  Dispatch attempts and
the medicine query are recorded in an event trace so that claims about
"zero dispatch calls" and "no query performed" are observable.
-/

/-- A medicine record, following the `Medicine` model of the Prisma schema.
Timestamps (`expiryDate`, `lastNotificationDate`) are abstract instants
measured in milliseconds, as JavaScript `Date` values are. -/
structure Medicine where
  id : Nat
  name : String
  expiryDate : Int
  quantity : Nat
  batchNumber : Option String
  notified : Bool
  lastNotificationDate : Option Int
deriving Repr, DecidableEq

/-- The notification-settings record, following the `NotificationSettings`
model of the Prisma schema.  The source stores the target time as the string
`"HH:MM"` and parses it with `split(':').map(Number)`; the parsed hour and
minute are carried directly as `targetHour`/`targetMinute`. -/
structure NotificationSettings where
  email : Option String
  enableEmailNotifications : Bool
  enablePushNotifications : Bool
  targetHour : Nat
  targetMinute : Nat
  enableMonthlyNotifications : Bool
  enableWeeklyNotifications : Bool
  enableDailyNotifications : Bool
  endpoint : Option String
  p256dh : Option String
  auth : Option String
deriving Repr, DecidableEq

/-- One row of the `NotificationLog` table. -/
structure LogEntry where
  medicineId : Nat
  type : String
  channel : String
  status : String
  message : String
  email : Option String
deriving Repr, DecidableEq

/-- The database state visible to the service: the medicine table, the
latest settings record returned by `findFirst` ordered by `updatedAt`
descending (`none` when no record exists), and the append-only log table. -/
structure DB where
  medicines : List Medicine
  settings : Option NotificationSettings
  logs : List LogEntry
deriving Repr, DecidableEq

/-- Observable external actions performed during a run: a `findMany` on the
medicine table, an email dispatch attempt, a push dispatch attempt. -/
inductive Event where
  | queryMedicines : Event
  | emailSend (recipient : String) (message : String) : Event
  | pushSend (endpoint : String) (message : String) : Event
deriving Repr, DecidableEq

/-- Behaviour of the external collaborators during one check cycle: the
outcome of an email send attempt, of a push send attempt, and of persisting
a given log entry (`Except.error m` models a rejected promise carrying the
error message `m`). -/
structure Env where
  emailResult : Except String Unit
  pushResult : Except String Unit
  logResult : LogEntry → Except String Unit

/-- Result of running one service method: the value or the propagated
thrown error, the database state after the run (mutations persist even when
an error propagates, as in JavaScript), and the trace of external events. -/
structure Outcome where
  result : Except String Unit
  db : DB
  events : List Event
deriving Repr

/-- Current wall-clock data, as the `dayjs()` calls of the source observe
it: `minutesOfDay` is `hour*60 + minute` and `msWithinMinute` is the
sub-minute remainder (seconds and milliseconds). -/
structure TimeOfDay where
  minutesOfDay : Nat
  msWithinMinute : Nat
deriving Repr, DecidableEq

/-- The calendar facts the source reads from dayjs in one cycle: the current
instant, the time of day, `day()` (0 = Sunday .. 6 = Saturday), `date()`
(day of month), and the instants `endOf('week')` and `endOf('month')`. -/
structure Clock where
  now : Int
  timeOfDay : TimeOfDay
  dayOfWeek : Nat
  dayOfMonth : Nat
  endOfWeek : Int
  endOfMonth : Int
deriving Repr, DecidableEq

/-- JavaScript truthiness of a nullable string field: `null` and the empty
string are falsy, every other string is truthy. -/
def jsTruthy : Option String → Bool
  | none => false
  | some s => !(s == "")

/-- Milliseconds since local midnight of a `TimeOfDay`. -/
def TimeOfDay.toMs (t : TimeOfDay) : Int :=
  (t.minutesOfDay : Int) * 60000 + (t.msWithinMinute : Int)

/-- The instant `dayjs().hour(targetHour).minute(targetMinute)` built by the
time gate: hour and minute are replaced, seconds and milliseconds of the
current instant are kept. -/
def targetTimeToday (now : TimeOfDay) (targetHour targetMinute : Nat) : TimeOfDay :=
  { minutesOfDay := targetHour * 60 + targetMinute, msWithinMinute := now.msWithinMinute }

/-- The dayjs `a.diff(b, 'minute')` computation: difference in milliseconds
divided by 60000 and truncated toward zero (`Int.div` is T-division, as in
JavaScript). -/
def jsDiffMinute (a b : TimeOfDay) : Int :=
  Int.tdiv (a.toMs - b.toMs) 60000

/-- The `diffInMinutes` value of `checkAndSendNotifications`:
`Math.abs(now.diff(targetTimeToday, 'minute'))`. -/
def diffInMinutes (now : TimeOfDay) (targetHour targetMinute : Nat) : Nat :=
  (jsDiffMinute now (targetTimeToday now targetHour targetMinute)).natAbs

/-- Relation used by the Daily query ordering `orderBy: expiryDate: 'asc'`. -/
def expiryLE (a b : Medicine) : Prop :=
  a.expiryDate ≤ b.expiryDate

instance : DecidableRel expiryLE :=
  fun a b => inferInstanceAs (Decidable (a.expiryDate ≤ b.expiryDate))

instance : IsTotal Medicine expiryLE :=
  ⟨fun a b => Int.le_total a.expiryDate b.expiryDate⟩

instance : IsTrans Medicine expiryLE :=
  ⟨fun _ _ _ hab hbc => le_trans hab hbc⟩

/-- The Daily `findMany`: medicines with `expiryDate` in
`[now, endOf('week')]` and `notified: false`, ordered ascending by expiry
date. -/
def dailySelection (meds : List Medicine) (clock : Clock) : List Medicine :=
  List.insertionSort expiryLE
    (meds.filter fun m =>
      decide (clock.now ≤ m.expiryDate) && decide (m.expiryDate ≤ clock.endOfWeek) && !m.notified)

/-- The Weekly `findMany`: medicines with `expiryDate` in
`[now, endOf('week')]`, irrespective of `notified`, no ordering clause. -/
def weeklySelection (meds : List Medicine) (clock : Clock) : List Medicine :=
  meds.filter fun m =>
    decide (clock.now ≤ m.expiryDate) && decide (m.expiryDate ≤ clock.endOfWeek)

/-- The Monthly `findMany`: medicines with `expiryDate` in
`[now, endOf('month')]`, irrespective of `notified`, no ordering clause. -/
def monthlySelection (meds : List Medicine) (clock : Clock) : List Medicine :=
  meds.filter fun m =>
    decide (clock.now ≤ m.expiryDate) && decide (m.expiryDate ≤ clock.endOfMonth)

/-- Stand-in for the dayjs rendering `format('MMMM D, YYYY')` of an
abstract instant; the claims never inspect the rendered date text. -/
def formatDate (t : Int) : String :=
  toString t

/-- The `daysUntilExpiry` computation `dayjs(expiry).diff(now, 'day')`:
millisecond difference divided by one day, truncated toward zero. -/
def daysUntil (now expiry : Int) : Int :=
  Int.tdiv (expiry - now) 86400000

/-- One line of the Daily consolidated list. -/
def dailyLine (now : Int) (med : Medicine) : String :=
  "- " ++ med.name ++ " (Expires in " ++ toString (daysUntil now med.expiryDate) ++
    " days on " ++ formatDate med.expiryDate ++ ")"

/-- The Daily consolidated message. -/
def dailyMessage (now : Int) (meds : List Medicine) : String :=
  "Daily Medicine Expiry Update\n\nThe following medicines will expire this week:\n\n" ++
    String.intercalate "\n" (meds.map (dailyLine now))

/-- One line of the Weekly/Monthly consolidated list. -/
def summaryLine (med : Medicine) : String :=
  "- " ++ med.name ++ " (Expires: " ++ formatDate med.expiryDate ++ ")"

/-- The Weekly consolidated message. -/
def weeklyMessage (meds : List Medicine) : String :=
  "Weekly Medicine Expiry Summary\n\nThe following medicines will expire this week:\n\n" ++
    String.intercalate "\n" (meds.map summaryLine)

/-- The Monthly consolidated message. -/
def monthlyMessage (meds : List Medicine) : String :=
  "Monthly Medicine Expiry Summary\n\nThe following medicines will expire this month:\n\n" ++
    String.intercalate "\n" (meds.map summaryLine)

/-- The message of the TypeError raised by JavaScript when
`currentSettings.enableEmailNotifications` is read while `currentSettings`
is `null` (settings absent at the re-read inside `sendNotification`). -/
def nullSettingsMessage : String :=
  "TypeError: cannot read properties of null"

/-- `getNotificationSettings`: fetch the latest settings record fresh from
the store (`findFirst` ordered by `updatedAt` descending). -/
def getNotificationSettings (db : DB) : Option NotificationSettings :=
  db.settings

/-- `logNotification`: `prisma.notificationLog.create` with the given row;
returns the grown database, or the thrown error when persistence fails. -/
def logNotification (env : Env) (db : DB) (medicineId : Nat)
    (type channel status message : String) (email : Option String) :
    Except String DB :=
  let entry : LogEntry :=
    { medicineId := medicineId, type := type, channel := channel,
      status := status, message := message, email := email }
  match env.logResult entry with
  | Except.ok _ => Except.ok { db with logs := db.logs ++ [entry] }
  | Except.error e => Except.error e

/-- The catch block of `sendNotification`: re-fetch settings, write a
failed log entry with channel hard-coded to `"EMAIL"`, the error message,
and `currentSettings?.email`, then re-throw.  When that log write itself
throws, the new error propagates instead and no entry is persisted. -/
def sendNotificationCatch (env : Env) (db : DB) (medicine : Medicine)
    (type errMsg : String) (events : List Event) : Outcome :=
  let currentSettings := getNotificationSettings db
  match logNotification env db medicine.id type "EMAIL" "failed" errMsg
      (currentSettings.bind fun s => s.email) with
  | Except.ok db2 => { result := Except.error errMsg, db := db2, events := events }
  | Except.error e2 => { result := Except.error e2, db := db, events := events }

/-- The tail of the `try` block: `if (!isConsolidated)` update the single
medicine record with `notified: true` and a fresh timestamp. -/
def sendNotificationFinish (now : Int) (db : DB) (medicine : Medicine)
    (isConsolidated : Bool) (events : List Event) : Outcome :=
  if isConsolidated then
    { result := Except.ok (), db := db, events := events }
  else
    { result := Except.ok (),
      db := { db with medicines := db.medicines.map fun m =>
        if m.id = medicine.id then
          { m with notified := true, lastNotificationDate := some now }
        else m },
      events := events }

/-- The push-channel step of the `try` block: when push notifications are
enabled and an endpoint is configured, attempt the web-push send and log a
success entry; any throw falls to the catch block. -/
def sendNotificationPush (env : Env) (now : Int) (db : DB) (medicine : Medicine)
    (currentSettings : NotificationSettings) (type message : String)
    (isConsolidated : Bool) (events : List Event) : Outcome :=
  if currentSettings.enablePushNotifications && jsTruthy currentSettings.endpoint then
    let events2 := events ++ [Event.pushSend (currentSettings.endpoint.getD "") message]
    match env.pushResult with
    | Except.error e => sendNotificationCatch env db medicine type e events2
    | Except.ok _ =>
      match logNotification env db medicine.id type "PUSH" "success" message none with
      | Except.error e => sendNotificationCatch env db medicine type e events2
      | Except.ok db2 => sendNotificationFinish now db2 medicine isConsolidated events2
  else
    sendNotificationFinish now db medicine isConsolidated events

/-- `sendNotification`: re-fetch fresh settings, then email channel, then
push channel, then the non-consolidated state update; every throw inside
the `try` block is handled by `sendNotificationCatch`.  When the re-fetched
settings are absent, reading `enableEmailNotifications` on `null` raises a
TypeError handled by the same catch. -/
def sendNotification (env : Env) (now : Int) (db : DB) (medicine : Medicine)
    (type message : String) (isConsolidated : Bool) : Outcome :=
  match getNotificationSettings db with
  | none => sendNotificationCatch env db medicine type nullSettingsMessage []
  | some currentSettings =>
    if currentSettings.enableEmailNotifications && jsTruthy currentSettings.email then
      let recipient := currentSettings.email.getD ""
      let events1 := [Event.emailSend recipient message]
      match env.emailResult with
      | Except.error e => sendNotificationCatch env db medicine type e events1
      | Except.ok _ =>
        match logNotification env db medicine.id type "EMAIL" "success" message
            (some recipient) with
        | Except.error e => sendNotificationCatch env db medicine type e events1
        | Except.ok db2 =>
          sendNotificationPush env now db2 medicine currentSettings type message
            isConsolidated events1
    else
      sendNotificationPush env now db medicine currentSettings type message
        isConsolidated []

/-- The `updateMany` of the Daily path: set `notified: true` and stamp
`lastNotificationDate` on every medicine whose id is in the list. -/
def applyUpdateMany (meds : List Medicine) (ids : List Nat) (now : Int) : List Medicine :=
  meds.map fun m =>
    if ids.contains m.id then
      { m with notified := true, lastNotificationDate := some now }
    else m

/-- `processDailyNotifications`: guard on the enable flag, query the Daily
selection, no-op when empty, otherwise send one consolidated notification
and then mark all selected medicines as notified. -/
def processDailyNotifications (env : Env) (clock : Clock) (db : DB)
    (settings : NotificationSettings) : Outcome :=
  if settings.enableDailyNotifications = false then
    { result := Except.ok (), db := db, events := [] }
  else
    match dailySelection db.medicines clock with
    | [] => { result := Except.ok (), db := db, events := [Event.queryMedicines] }
    | m :: rest =>
      let message := dailyMessage clock.now (m :: rest)
      let o := sendNotification env clock.now db m "DAILY" message true
      match o.result with
      | Except.error e =>
        { result := Except.error e, db := o.db, events := Event.queryMedicines :: o.events }
      | Except.ok _ =>
        let updated := applyUpdateMany o.db.medicines ((m :: rest).map fun x => x.id) clock.now
        { result := Except.ok (), db := { o.db with medicines := updated },
          events := Event.queryMedicines :: o.events }

/-- `processWeeklyNotifications`: guard on the enable flag, then on
`day() == 1` (Monday), query the Weekly selection, no-op when empty,
otherwise send one consolidated notification; no medicine mutation. -/
def processWeeklyNotifications (env : Env) (clock : Clock) (db : DB)
    (settings : NotificationSettings) : Outcome :=
  if settings.enableWeeklyNotifications = false then
    { result := Except.ok (), db := db, events := [] }
  else if clock.dayOfWeek ≠ 1 then
    { result := Except.ok (), db := db, events := [] }
  else
    match weeklySelection db.medicines clock with
    | [] => { result := Except.ok (), db := db, events := [Event.queryMedicines] }
    | m :: rest =>
      let message := weeklyMessage (m :: rest)
      let o := sendNotification env clock.now db m "WEEKLY" message true
      { result := o.result, db := o.db, events := Event.queryMedicines :: o.events }

/-- `processMonthlyNotifications`: guard on the enable flag, then on
`date() == 1` (first of the month), query the Monthly selection, no-op when
empty, otherwise send one consolidated notification; no medicine
mutation. -/
def processMonthlyNotifications (env : Env) (clock : Clock) (db : DB)
    (settings : NotificationSettings) : Outcome :=
  if settings.enableMonthlyNotifications = false then
    { result := Except.ok (), db := db, events := [] }
  else if clock.dayOfMonth ≠ 1 then
    { result := Except.ok (), db := db, events := [] }
  else
    match monthlySelection db.medicines clock with
    | [] => { result := Except.ok (), db := db, events := [Event.queryMedicines] }
    | m :: rest =>
      let message := monthlyMessage (m :: rest)
      let o := sendNotification env clock.now db m "MONTHLY" message true
      { result := o.result, db := o.db, events := Event.queryMedicines :: o.events }

/-- The cadence sequence of `checkAndSendNotifications` after the time
gate: Daily, then Weekly, then Monthly, each behind its enable flag; an
error thrown by one cadence propagates and the following cadences do not
run. -/
def processCadences (env : Env) (clock : Clock) (db : DB)
    (settings : NotificationSettings) : Outcome :=
  let o1 :=
    if settings.enableDailyNotifications then
      processDailyNotifications env clock db settings
    else { result := Except.ok (), db := db, events := [] }
  match o1.result with
  | Except.error e => { result := Except.error e, db := o1.db, events := o1.events }
  | Except.ok _ =>
    let o2 :=
      if settings.enableWeeklyNotifications then
        processWeeklyNotifications env clock o1.db settings
      else { result := Except.ok (), db := o1.db, events := [] }
    match o2.result with
    | Except.error e =>
      { result := Except.error e, db := o2.db, events := o1.events ++ o2.events }
    | Except.ok _ =>
      let o3 :=
        if settings.enableMonthlyNotifications then
          processMonthlyNotifications env clock o2.db settings
        else { result := Except.ok (), db := o2.db, events := [] }
      { result := o3.result, db := o3.db, events := o1.events ++ o2.events ++ o3.events }

/-- `checkAndSendNotifications`: fetch settings (absence is a silent
no-op), apply the one-minute time gate unless `forceCheck`, then run the
cadences. -/
def checkAndSendNotifications (env : Env) (clock : Clock) (db : DB)
    (forceCheck : Bool) : Outcome :=
  match getNotificationSettings db with
  | none => { result := Except.ok (), db := db, events := [] }
  | some settings =>
    if forceCheck = false ∧
        1 < diffInMinutes clock.timeOfDay settings.targetHour settings.targetMinute then
      { result := Except.ok (), db := db, events := [] }
    else
      processCadences env clock db settings

/-- Recognizer for email dispatch events. -/
def Event.isEmail : Event → Bool
  | Event.emailSend _ _ => true
  | _ => false

/-- Recognizer for push dispatch events. -/
def Event.isPush : Event → Bool
  | Event.pushSend _ _ => true
  | _ => false

/-- Field-wise agreement on everything except `notified` and
`lastNotificationDate`: the frame the Daily `updateMany` must respect. -/
def sameCore (m m2 : Medicine) : Prop :=
  m2.id = m.id ∧ m2.name = m.name ∧ m2.expiryDate = m.expiryDate ∧
    m2.quantity = m.quantity ∧ m2.batchNumber = m.batchNumber

/-- Environment in which every external call succeeds. -/
def envAllOk : Env :=
  { emailResult := Except.ok (), pushResult := Except.ok (),
    logResult := fun _ => Except.ok () }

/-- Environment in which the email send throws and everything else
succeeds. -/
def envEmailFail : Env :=
  { emailResult := Except.error "smtp down", pushResult := Except.ok (),
    logResult := fun _ => Except.ok () }

/-- Environment in which the push send throws and everything else
succeeds. -/
def envPushFail : Env :=
  { emailResult := Except.ok (), pushResult := Except.error "push down",
    logResult := fun _ => Except.ok () }

/-- Environment in which persisting any success log entry throws while
sends and failed-entry writes succeed. -/
def envLogFail : Env :=
  { emailResult := Except.ok (), pushResult := Except.ok (),
    logResult := fun entry =>
      if entry.status == "success" then Except.error "db down" else Except.ok () }

/-- Sample medicine expiring inside the current week. -/
def medA : Medicine :=
  { id := 1, name := "Aspirin", expiryDate := 10, quantity := 5,
    batchNumber := none, notified := false, lastNotificationDate := none }

/-- Second sample medicine expiring later in the current week. -/
def medB : Medicine :=
  { id := 2, name := "Ibuprofen", expiryDate := 20, quantity := 3,
    batchNumber := none, notified := false, lastNotificationDate := none }

/-- Sample clock: a Wednesday that is the 15th of the month, 09:00:30.5. -/
def clockW : Clock :=
  { now := 0, timeOfDay := { minutesOfDay := 540, msWithinMinute := 30500 },
    dayOfWeek := 3, dayOfMonth := 15, endOfWeek := 100, endOfMonth := 1000 }

/-- Settings with only the email channel configured, Daily enabled. -/
def settingsEmailOnly : NotificationSettings :=
  { email := some "a@x.com", enableEmailNotifications := true,
    enablePushNotifications := false, targetHour := 9, targetMinute := 0,
    enableMonthlyNotifications := false, enableWeeklyNotifications := false,
    enableDailyNotifications := true, endpoint := none, p256dh := none, auth := none }

/-- Settings with only the push channel configured, Daily enabled. -/
def settingsPushOnly : NotificationSettings :=
  { email := none, enableEmailNotifications := false,
    enablePushNotifications := true, targetHour := 9, targetMinute := 0,
    enableMonthlyNotifications := false, enableWeeklyNotifications := false,
    enableDailyNotifications := true, endpoint := some "https://ep",
    p256dh := some "k1", auth := some "k2" }

/-- Settings with both channels configured, Daily enabled. -/
def settingsBoth : NotificationSettings :=
  { email := some "a@x.com", enableEmailNotifications := true,
    enablePushNotifications := true, targetHour := 9, targetMinute := 0,
    enableMonthlyNotifications := false, enableWeeklyNotifications := false,
    enableDailyNotifications := true, endpoint := some "https://ep",
    p256dh := some "k1", auth := some "k2" }

/-- Settings with no channel configured, Daily enabled. -/
def settingsNoChannel : NotificationSettings :=
  { email := none, enableEmailNotifications := false,
    enablePushNotifications := false, targetHour := 9, targetMinute := 0,
    enableMonthlyNotifications := false, enableWeeklyNotifications := false,
    enableDailyNotifications := true, endpoint := none, p256dh := none, auth := none }

/-- Settings with every cadence enabled, email configured. -/
def settingsAllCadences : NotificationSettings :=
  { email := some "a@x.com", enableEmailNotifications := true,
    enablePushNotifications := false, targetHour := 9, targetMinute := 0,
    enableMonthlyNotifications := true, enableWeeklyNotifications := true,
    enableDailyNotifications := true, endpoint := none, p256dh := none, auth := none }

/-- Database with two unnotified medicines and email-only settings. -/
def dbEmailOnly : DB :=
  { medicines := [medA, medB], settings := some settingsEmailOnly, logs := [] }

/-- Database with one unnotified medicine and email-only settings. -/
def dbOneEmail : DB :=
  { medicines := [medA], settings := some settingsEmailOnly, logs := [] }

/-- Database with one unnotified medicine and push-only settings. -/
def dbPushOnly : DB :=
  { medicines := [medA], settings := some settingsPushOnly, logs := [] }

/-- Database with one unnotified medicine and both channels configured. -/
def dbBoth : DB :=
  { medicines := [medA], settings := some settingsBoth, logs := [] }

/-- Database with one unnotified medicine and no channel configured. -/
def dbNoChannel : DB :=
  { medicines := [medA], settings := some settingsNoChannel, logs := [] }

/-- Database with a medicine but no settings record at all. -/
def dbNoSettings : DB :=
  { medicines := [medA], settings := none, logs := [] }

/-- Database with no medicines and all cadences enabled. -/
def dbEmpty : DB :=
  { medicines := [], settings := some settingsAllCadences, logs := [] }

/-- Because `dayjs().hour(h).minute(m)` keeps the seconds and milliseconds
of the current instant, the truncating millisecond-based minute diff of the
time gate is exact: it equals the plain difference of minutes-of-day. -/
theorem jsDiffMinute_target (now : TimeOfDay) (th tm : Nat) :
    jsDiffMinute now (targetTimeToday now th tm) =
      (now.minutesOfDay : Int) - ((th * 60 + tm : Nat) : Int) := by
  unfold jsDiffMinute targetTimeToday TimeOfDay.toMs
  have h : ((now.minutesOfDay : Int) * 60000 + (now.msWithinMinute : Int)) -
      (((th * 60 + tm : Nat) : Int) * 60000 + (now.msWithinMinute : Int)) =
      ((now.minutesOfDay : Int) - ((th * 60 + tm : Nat) : Int)) * 60000 := by ring
  simp only [h]
  exact Int.mul_tdiv_cancel _ (by norm_num)

/-- The gate quantity `diffInMinutes` is the absolute difference of the
minutes-of-day of now and of the configured target. -/
theorem diffInMinutes_eq (now : TimeOfDay) (th tm : Nat) :
    diffInMinutes now th tm =
      ((now.minutesOfDay : Int) - ((th * 60 + tm : Nat) : Int)).natAbs := by
  unfold diffInMinutes
  rw [jsDiffMinute_target]

/-- When a `logNotification` call returns a database, that database is the
input database with exactly the given entry appended. -/
theorem logNotification_ok_shape (env : Env) (db : DB) (mid : Nat)
    (ty ch st msg : String) (em : Option String) (db2 : DB)
    (h : logNotification env db mid ty ch st msg em = Except.ok db2) :
    db2 = { db with logs := db.logs ++
      [{ medicineId := mid, type := ty, channel := ch, status := st,
         message := msg, email := em }] } := by
  unfold logNotification at h
  dsimp only at h
  split at h
  · injection h with h2
    exact h2.symm
  · exact Except.noConfusion h

/-- The catch block preserves the event trace, the medicine table and the
settings record, and always ends in a propagated error. -/
theorem sendNotificationCatch_spec (env : Env) (db : DB) (med : Medicine)
    (ty e : String) (evs : List Event) :
    (sendNotificationCatch env db med ty e evs).events = evs ∧
    (sendNotificationCatch env db med ty e evs).db.medicines = db.medicines ∧
    (sendNotificationCatch env db med ty e evs).db.settings = db.settings ∧
    ∃ m, (sendNotificationCatch env db med ty e evs).result = Except.error m := by
  unfold sendNotificationCatch
  dsimp only [getNotificationSettings]
  split
  · next db2 heq =>
    have hsh := logNotification_ok_shape env db med.id ty "EMAIL" "failed" e _ db2 heq
    subst hsh
    exact ⟨rfl, rfl, rfl, e, rfl⟩
  · next e2 heq =>
    exact ⟨rfl, rfl, rfl, e2, rfl⟩

/-- When persisting the failed entry succeeds, the catch block appends
exactly that entry (channel `"EMAIL"`, status `"failed"`, the error
message, the freshly read optional email) and re-throws the error. -/
theorem sendNotificationCatch_ok (env : Env) (db : DB) (med : Medicine)
    (ty e : String) (evs : List Event)
    (hlog : env.logResult
      { medicineId := med.id, type := ty, channel := "EMAIL", status := "failed",
        message := e, email := db.settings.bind fun s => s.email } = Except.ok ()) :
    sendNotificationCatch env db med ty e evs =
      { result := Except.error e,
        db := { db with logs := db.logs ++
          [{ medicineId := med.id, type := ty, channel := "EMAIL", status := "failed",
             message := e, email := db.settings.bind fun s => s.email }] },
        events := evs } := by
  unfold sendNotificationCatch logNotification getNotificationSettings
  simp [hlog]

/-- A consolidated `sendNotificationFinish` changes nothing. -/
theorem sendNotificationFinish_consolidated (now : Int) (db : DB) (med : Medicine)
    (evs : List Event) :
    sendNotificationFinish now db med true evs =
      { result := Except.ok (), db := db, events := evs } := by
  rfl

/-- The push step of a consolidated send preserves the medicine table and
the settings record. -/
theorem sendNotificationPush_frame (env : Env) (now : Int) (db : DB) (med : Medicine)
    (cs : NotificationSettings) (ty msg : String) (evs : List Event) :
    (sendNotificationPush env now db med cs ty msg true evs).db.medicines = db.medicines ∧
    (sendNotificationPush env now db med cs ty msg true evs).db.settings = db.settings := by
  unfold sendNotificationPush
  split
  · split
    · next e heq =>
      exact ⟨(sendNotificationCatch_spec env db med ty e _).2.1,
        (sendNotificationCatch_spec env db med ty e _).2.2.1⟩
    · next u heq =>
      split
      · next e heq2 =>
        exact ⟨(sendNotificationCatch_spec env db med ty e _).2.1,
          (sendNotificationCatch_spec env db med ty e _).2.2.1⟩
      · next db2 heq2 =>
        have hsh := logNotification_ok_shape env db med.id ty "PUSH" "success" msg none db2 heq2
        subst hsh
        exact ⟨rfl, rfl⟩
  · exact ⟨rfl, rfl⟩

/-- A consolidated `sendNotification` never mutates the medicine table nor
the settings record, whatever the channel outcomes. -/
theorem sendNotification_consolidated_frame (env : Env) (now : Int) (db : DB)
    (med : Medicine) (ty msg : String) :
    (sendNotification env now db med ty msg true).db.medicines = db.medicines ∧
    (sendNotification env now db med ty msg true).db.settings = db.settings := by
  unfold sendNotification
  split
  · exact ⟨(sendNotificationCatch_spec env db med ty nullSettingsMessage _).2.1,
      (sendNotificationCatch_spec env db med ty nullSettingsMessage _).2.2.1⟩
  · next cs heq =>
    split
    · split
      · next e heq2 =>
        exact ⟨(sendNotificationCatch_spec env db med ty e _).2.1,
          (sendNotificationCatch_spec env db med ty e _).2.2.1⟩
      · next u heq2 =>
        dsimp only
        split
        · next e heq3 =>
          exact ⟨(sendNotificationCatch_spec env db med ty e _).2.1,
            (sendNotificationCatch_spec env db med ty e _).2.2.1⟩
        · next db2 heq3 =>
          have hsh := logNotification_ok_shape env db med.id ty "EMAIL" "success" msg
            (some (cs.email.getD "")) db2 heq3
          subst hsh
          exact sendNotificationPush_frame env now _ med cs ty msg _
    · exact sendNotificationPush_frame env now db med cs ty msg []

/-- Every record of the updated table whose id is in the update list has
`notified = true` and the stamped timestamp. -/
theorem applyUpdateMany_marks (meds : List Medicine) (ids : List Nat) (now : Int) :
    ∀ m, m ∈ applyUpdateMany meds ids now → m.id ∈ ids →
      m.notified = true ∧ m.lastNotificationDate = some now := by
  intro m hm hid
  unfold applyUpdateMany at hm
  rcases List.mem_map.mp hm with ⟨m0, _, hEq⟩
  by_cases hc : ids.contains m0.id = true
  · rw [if_pos hc] at hEq
    subst hEq
    exact ⟨rfl, rfl⟩
  · rw [if_neg hc] at hEq
    subst hEq
    simp at hc
    exact absurd hid hc

theorem sameCore_refl (m : Medicine) : sameCore m m :=
  ⟨rfl, rfl, rfl, rfl, rfl⟩

theorem forall2_sameCore_refl (l : List Medicine) : List.Forall₂ sameCore l l := by
  induction l with
  | nil => exact List.Forall₂.nil
  | cons a t ih => exact List.Forall₂.cons (sameCore_refl a) ih

theorem forall2_sameCore_update (l : List Medicine) (ids : List Nat) (now : Int) :
    List.Forall₂ sameCore l (applyUpdateMany l ids now) := by
  induction l with
  | nil => exact List.Forall₂.nil
  | cons a t ih =>
    unfold applyUpdateMany
    rw [List.map_cons]
    unfold applyUpdateMany at ih
    refine List.Forall₂.cons ?_ ih
    by_cases hc : ids.contains a.id = true
    · rw [if_pos hc]
      exact ⟨rfl, rfl, rfl, rfl, rfl⟩
    · rw [if_neg hc]
      exact sameCore_refl a

/-- Membership in the Daily selection is exactly the Daily query predicate:
expiry within `[now, endOf('week')]` and not yet notified. -/
theorem dailySelection_mem (meds : List Medicine) (clock : Clock) (m : Medicine) :
    m ∈ dailySelection meds clock ↔
      m ∈ meds ∧ clock.now ≤ m.expiryDate ∧ m.expiryDate ≤ clock.endOfWeek ∧
        m.notified = false := by
  unfold dailySelection
  rw [(List.perm_insertionSort expiryLE _).mem_iff, List.mem_filter]
  simp [Bool.and_eq_true, decide_eq_true_eq, and_assoc]

/-- The Daily selection is sorted ascending by expiry date. -/
theorem dailySelection_sorted (meds : List Medicine) (clock : Clock) :
    List.Sorted expiryLE (dailySelection meds clock) :=
  List.sorted_insertionSort expiryLE _

/-- The Daily selection is a permutation of the filtered table. -/
theorem dailySelection_perm (meds : List Medicine) (clock : Clock) :
    List.Perm (dailySelection meds clock)
      (meds.filter fun m =>
        decide (clock.now ≤ m.expiryDate) && decide (m.expiryDate ≤ clock.endOfWeek) &&
          !m.notified) :=
  List.perm_insertionSort expiryLE _

/-- The Weekly path never mutates the medicine table or the settings. -/
theorem processWeekly_frame (env : Env) (clock : Clock) (db : DB)
    (s : NotificationSettings) :
    (processWeeklyNotifications env clock db s).db.medicines = db.medicines ∧
    (processWeeklyNotifications env clock db s).db.settings = db.settings := by
  unfold processWeeklyNotifications
  split
  · exact ⟨rfl, rfl⟩
  · split
    · exact ⟨rfl, rfl⟩
    · split
      · exact ⟨rfl, rfl⟩
      · next m rest heq =>
        dsimp only
        exact sendNotification_consolidated_frame env clock.now db m "WEEKLY" _

/-- The Monthly path never mutates the medicine table or the settings. -/
theorem processMonthly_frame (env : Env) (clock : Clock) (db : DB)
    (s : NotificationSettings) :
    (processMonthlyNotifications env clock db s).db.medicines = db.medicines ∧
    (processMonthlyNotifications env clock db s).db.settings = db.settings := by
  unfold processMonthlyNotifications
  split
  · exact ⟨rfl, rfl⟩
  · split
    · exact ⟨rfl, rfl⟩
    · split
      · exact ⟨rfl, rfl⟩
      · next m rest heq =>
        dsimp only
        exact sendNotification_consolidated_frame env clock.now db m "MONTHLY" _

/-- The Daily path only flips `notified` and stamps
`lastNotificationDate`; positions and all other fields are unchanged. -/
theorem processDaily_forall2 (env : Env) (clock : Clock) (db : DB)
    (s : NotificationSettings) :
    List.Forall₂ sameCore db.medicines
      (processDailyNotifications env clock db s).db.medicines := by
  unfold processDailyNotifications
  split
  · exact forall2_sameCore_refl _
  · split
    · exact forall2_sameCore_refl _
    · next m rest heq =>
      dsimp only
      split
      · next e heq2 =>
        rw [show ((sendNotification env clock.now db m "DAILY"
            (dailyMessage clock.now (m :: rest)) true).db.medicines = db.medicines) from
          (sendNotification_consolidated_frame env clock.now db m "DAILY" _).1]
        exact forall2_sameCore_refl _
      · next u heq2 =>
        have hm := (sendNotification_consolidated_frame env clock.now db m "DAILY"
          (dailyMessage clock.now (m :: rest))).1
        rw [← hm]
        exact forall2_sameCore_update _ _ _

/-- The Daily path preserves the settings record. -/
theorem processDaily_settings (env : Env) (clock : Clock) (db : DB)
    (s : NotificationSettings) :
    (processDailyNotifications env clock db s).db.settings = db.settings := by
  unfold processDailyNotifications
  split
  · rfl
  · split
    · rfl
    · next m rest heq =>
      dsimp only
      split
      · next e heq2 =>
        exact (sendNotification_consolidated_frame env clock.now db m "DAILY" _).2
      · next u heq2 =>
        exact (sendNotification_consolidated_frame env clock.now db m "DAILY" _).2

/-- With the Daily cadence disabled the Daily path is a silent no-op. -/
theorem processDaily_disabled (env : Env) (clock : Clock) (db : DB)
    (s : NotificationSettings) (hd : s.enableDailyNotifications = false) :
    processDailyNotifications env clock db s =
      { result := Except.ok (), db := db, events := [] } := by
  unfold processDailyNotifications
  rw [if_pos hd]

/-- An empty Daily selection only performs the query: no dispatch, no log,
no update. -/
theorem processDaily_enabled_empty (env : Env) (clock : Clock) (db : DB)
    (s : NotificationSettings) (hd : s.enableDailyNotifications = true)
    (hsel : dailySelection db.medicines clock = []) :
    processDailyNotifications env clock db s =
      { result := Except.ok (), db := db, events := [Event.queryMedicines] } := by
  unfold processDailyNotifications
  rw [if_neg (by rw [hd]; exact fun h => Bool.noConfusion h), hsel]

/-- A non-empty Daily selection sends one consolidated notification and,
only when it returns without error, marks the whole selection. -/
theorem processDaily_enabled_nonempty (env : Env) (clock : Clock) (db : DB)
    (s : NotificationSettings) (m : Medicine) (rest : List Medicine)
    (hd : s.enableDailyNotifications = true)
    (hsel : dailySelection db.medicines clock = m :: rest) :
    processDailyNotifications env clock db s =
      (match (sendNotification env clock.now db m "DAILY"
          (dailyMessage clock.now (m :: rest)) true).result with
      | Except.error e =>
        { result := Except.error e,
          db := (sendNotification env clock.now db m "DAILY"
            (dailyMessage clock.now (m :: rest)) true).db,
          events := Event.queryMedicines :: (sendNotification env clock.now db m "DAILY"
            (dailyMessage clock.now (m :: rest)) true).events }
      | Except.ok _ =>
        { result := Except.ok (),
          db := { (sendNotification env clock.now db m "DAILY"
              (dailyMessage clock.now (m :: rest)) true).db with
            medicines := applyUpdateMany
              (sendNotification env clock.now db m "DAILY"
                (dailyMessage clock.now (m :: rest)) true).db.medicines
              ((m :: rest).map fun x => x.id) clock.now },
          events := Event.queryMedicines :: (sendNotification env clock.now db m "DAILY"
            (dailyMessage clock.now (m :: rest)) true).events }) := by
  unfold processDailyNotifications
  rw [if_neg (by rw [hd]; exact fun h => Bool.noConfusion h), hsel]

/-- On any day other than Monday the Weekly path returns immediately:
no query, no dispatch, no log, no mutation. -/
theorem processWeekly_notMonday (env : Env) (clock : Clock) (db : DB)
    (s : NotificationSettings) (hw : clock.dayOfWeek ≠ 1) :
    processWeeklyNotifications env clock db s =
      { result := Except.ok (), db := db, events := [] } := by
  unfold processWeeklyNotifications
  by_cases he : s.enableWeeklyNotifications = false
  · rw [if_pos he]
  · rw [if_neg he, if_pos hw]

/-- An empty Weekly selection leaves the database untouched and performs
at most the query. -/
theorem processWeekly_empty (env : Env) (clock : Clock) (db : DB)
    (s : NotificationSettings) (hsel : weeklySelection db.medicines clock = []) :
    (processWeeklyNotifications env clock db s).db = db ∧
    (∀ e, e ∈ (processWeeklyNotifications env clock db s).events →
      e = Event.queryMedicines) := by
  unfold processWeeklyNotifications
  by_cases he : s.enableWeeklyNotifications = false
  · rw [if_pos he]
    exact ⟨rfl, by intro e h; simp at h⟩
  · rw [if_neg he]
    by_cases hw : clock.dayOfWeek ≠ 1
    · rw [if_pos hw]
      exact ⟨rfl, by intro e h; simp at h⟩
    · rw [if_neg hw, hsel]
      exact ⟨rfl, by intro e h; simpa using h⟩

/-- On any day of the month other than the 1st the Monthly path returns
immediately: no query, no dispatch, no log, no mutation. -/
theorem processMonthly_notFirst (env : Env) (clock : Clock) (db : DB)
    (s : NotificationSettings) (hm : clock.dayOfMonth ≠ 1) :
    processMonthlyNotifications env clock db s =
      { result := Except.ok (), db := db, events := [] } := by
  unfold processMonthlyNotifications
  by_cases he : s.enableMonthlyNotifications = false
  · rw [if_pos he]
  · rw [if_neg he, if_pos hm]

/-- An empty Monthly selection leaves the database untouched and performs
at most the query. -/
theorem processMonthly_empty (env : Env) (clock : Clock) (db : DB)
    (s : NotificationSettings) (hsel : monthlySelection db.medicines clock = []) :
    (processMonthlyNotifications env clock db s).db = db ∧
    (∀ e, e ∈ (processMonthlyNotifications env clock db s).events →
      e = Event.queryMedicines) := by
  unfold processMonthlyNotifications
  by_cases he : s.enableMonthlyNotifications = false
  · rw [if_pos he]
    exact ⟨rfl, by intro e h; simp at h⟩
  · rw [if_neg he]
    by_cases hm : clock.dayOfMonth ≠ 1
    · rw [if_pos hm]
      exact ⟨rfl, by intro e h; simp at h⟩
    · rw [if_neg hm, hsel]
      exact ⟨rfl, by intro e h; simpa using h⟩

/-- An empty Daily selection leaves the database untouched and performs
at most the query. -/
theorem processDaily_empty (env : Env) (clock : Clock) (db : DB)
    (s : NotificationSettings) (hsel : dailySelection db.medicines clock = []) :
    (processDailyNotifications env clock db s).db = db ∧
    (∀ e, e ∈ (processDailyNotifications env clock db s).events →
      e = Event.queryMedicines) := by
  unfold processDailyNotifications
  by_cases hd : s.enableDailyNotifications = false
  · rw [if_pos hd]
    exact ⟨rfl, by intro e h; simp at h⟩
  · rw [if_neg hd, hsel]
    exact ⟨rfl, by intro e h; simpa using h⟩

/-- When the re-fetched settings enable no channel (email disabled or not
configured, push disabled or no endpoint), a consolidated
`sendNotification` does nothing at all and returns successfully. -/
theorem sendNotification_noChannel (env : Env) (now : Int) (db : DB)
    (med : Medicine) (ty msg : String) (cs : NotificationSettings)
    (hs : db.settings = some cs)
    (he : (cs.enableEmailNotifications && jsTruthy cs.email) = false)
    (hp : (cs.enablePushNotifications && jsTruthy cs.endpoint) = false) :
    sendNotification env now db med ty msg true =
      { result := Except.ok (), db := db, events := [] } := by
  unfold sendNotification getNotificationSettings
  rw [hs]
  dsimp only
  rw [if_neg (by rw [he]; exact fun h => Bool.noConfusion h)]
  unfold sendNotificationPush
  rw [if_neg (by rw [hp]; exact fun h => Bool.noConfusion h)]
  exact sendNotificationFinish_consolidated now db med []

/-- When the email channel is attempted and the email send throws, the
call writes exactly one failed log entry (channel `"EMAIL"`, the error
message, the configured address) and re-throws; the push channel is never
attempted and the medicine table is untouched. -/
theorem sendNotification_emailFail (env : Env) (now : Int) (db : DB)
    (med : Medicine) (ty msg : String) (cons : Bool) (cs : NotificationSettings)
    (e : String)
    (hs : db.settings = some cs)
    (he : (cs.enableEmailNotifications && jsTruthy cs.email) = true)
    (hfail : env.emailResult = Except.error e)
    (hlog : env.logResult
      { medicineId := med.id, type := ty, channel := "EMAIL", status := "failed",
        message := e, email := cs.email } = Except.ok ()) :
    sendNotification env now db med ty msg cons =
      { result := Except.error e,
        db := { db with logs := db.logs ++
          [{ medicineId := med.id, type := ty, channel := "EMAIL", status := "failed",
             message := e, email := cs.email }] },
        events := [Event.emailSend (cs.email.getD "") msg] } := by
  unfold sendNotification getNotificationSettings
  rw [hs]
  dsimp only
  rw [if_pos he, hfail]
  dsimp only
  rw [sendNotificationCatch_ok env db med ty e _ (by rw [hs]; exact hlog)]
  rw [hs]
  rfl

/-- When the email channel is skipped, the push channel is attempted and
the push send throws, the failed log entry is still written with channel
`"EMAIL"`; the medicine table is untouched and the error re-thrown. -/
theorem sendNotification_pushFail_noEmail (env : Env) (now : Int) (db : DB)
    (med : Medicine) (ty msg : String) (cons : Bool) (cs : NotificationSettings)
    (e : String)
    (hs : db.settings = some cs)
    (he : (cs.enableEmailNotifications && jsTruthy cs.email) = false)
    (hp : (cs.enablePushNotifications && jsTruthy cs.endpoint) = true)
    (hpfail : env.pushResult = Except.error e)
    (hlog : env.logResult
      { medicineId := med.id, type := ty, channel := "EMAIL", status := "failed",
        message := e, email := cs.email } = Except.ok ()) :
    sendNotification env now db med ty msg cons =
      { result := Except.error e,
        db := { db with logs := db.logs ++
          [{ medicineId := med.id, type := ty, channel := "EMAIL", status := "failed",
             message := e, email := cs.email }] },
        events := [Event.pushSend (cs.endpoint.getD "") msg] } := by
  unfold sendNotification getNotificationSettings
  rw [hs]
  dsimp only
  rw [if_neg (by rw [he]; exact fun h => Bool.noConfusion h)]
  unfold sendNotificationPush
  rw [if_pos hp, hpfail]
  dsimp only
  rw [sendNotificationCatch_ok env db med ty e _ (by rw [hs]; exact hlog)]
  rw [hs]
  rfl

/-- When the email channel succeeds (send and success log) and the push
send then throws, the call keeps the email success entry, appends one
failed entry with channel `"EMAIL"`, leaves the medicine table untouched
and re-throws the push error. -/
theorem sendNotification_pushFail_afterEmail (env : Env) (now : Int) (db : DB)
    (med : Medicine) (ty msg : String) (cons : Bool) (cs : NotificationSettings)
    (e : String)
    (hs : db.settings = some cs)
    (he : (cs.enableEmailNotifications && jsTruthy cs.email) = true)
    (hEmailOk : env.emailResult = Except.ok ())
    (hlogS : env.logResult
      { medicineId := med.id, type := ty, channel := "EMAIL", status := "success",
        message := msg, email := some (cs.email.getD "") } = Except.ok ())
    (hp : (cs.enablePushNotifications && jsTruthy cs.endpoint) = true)
    (hpfail : env.pushResult = Except.error e)
    (hlogF : env.logResult
      { medicineId := med.id, type := ty, channel := "EMAIL", status := "failed",
        message := e, email := cs.email } = Except.ok ()) :
    sendNotification env now db med ty msg cons =
      { result := Except.error e,
        db := { db with logs := db.logs ++
          [{ medicineId := med.id, type := ty, channel := "EMAIL", status := "success",
             message := msg, email := some (cs.email.getD "") },
           { medicineId := med.id, type := ty, channel := "EMAIL", status := "failed",
             message := e, email := cs.email }] },
        events := [Event.emailSend (cs.email.getD "") msg,
          Event.pushSend (cs.endpoint.getD "") msg] } := by
  unfold sendNotification getNotificationSettings
  rw [hs]
  dsimp only
  rw [if_pos he, hEmailOk]
  dsimp only
  unfold logNotification
  dsimp only
  rw [hlogS]
  dsimp only
  unfold sendNotificationPush
  rw [if_pos hp, hpfail]
  dsimp only
  rw [sendNotificationCatch_ok env _ med ty e _ (by dsimp only; rw [hs]; exact hlogF)]
  rw [hs]
  simp

/-- When the email send succeeds but persisting its success log entry
throws, the log error takes the place of a delivery error: the push
channel is never attempted, a failed entry is written and the log error is
re-thrown. -/
theorem sendNotification_logFail_afterEmail (env : Env) (now : Int) (db : DB)
    (med : Medicine) (ty msg : String) (cons : Bool) (cs : NotificationSettings)
    (e : String)
    (hs : db.settings = some cs)
    (he : (cs.enableEmailNotifications && jsTruthy cs.email) = true)
    (hEmailOk : env.emailResult = Except.ok ())
    (hlogS : env.logResult
      { medicineId := med.id, type := ty, channel := "EMAIL", status := "success",
        message := msg, email := some (cs.email.getD "") } = Except.error e)
    (hlogF : env.logResult
      { medicineId := med.id, type := ty, channel := "EMAIL", status := "failed",
        message := e, email := cs.email } = Except.ok ()) :
    sendNotification env now db med ty msg cons =
      { result := Except.error e,
        db := { db with logs := db.logs ++
          [{ medicineId := med.id, type := ty, channel := "EMAIL", status := "failed",
             message := e, email := cs.email }] },
        events := [Event.emailSend (cs.email.getD "") msg] } := by
  unfold sendNotification getNotificationSettings
  rw [hs]
  dsimp only
  rw [if_pos he, hEmailOk]
  dsimp only
  unfold logNotification
  dsimp only
  rw [hlogS]
  dsimp only
  rw [sendNotificationCatch_ok env db med ty e _ (by rw [hs]; exact hlogF)]
  rw [hs]
  rfl

/-- When the settings re-read inside `sendNotification` returns absence,
the resulting TypeError is caught, logged as a failed entry (channel
`"EMAIL"`, no address) and re-thrown; no dispatch happens and the medicine
table is untouched. -/
theorem sendNotification_settingsAbsent (env : Env) (now : Int) (db : DB)
    (med : Medicine) (ty msg : String) (cons : Bool)
    (hs : db.settings = none)
    (hlog : env.logResult
      { medicineId := med.id, type := ty, channel := "EMAIL", status := "failed",
        message := nullSettingsMessage, email := none } = Except.ok ()) :
    sendNotification env now db med ty msg cons =
      { result := Except.error nullSettingsMessage,
        db := { db with logs := db.logs ++
          [{ medicineId := med.id, type := ty, channel := "EMAIL", status := "failed",
             message := nullSettingsMessage, email := none }] },
        events := [] } := by
  unfold sendNotification getNotificationSettings
  rw [hs]
  dsimp only
  rw [sendNotificationCatch_ok env db med ty nullSettingsMessage _ (by rw [hs]; exact hlog)]
  rw [hs]
  rfl

/-- The finishing step never adds events. -/
theorem sendNotificationFinish_events (now : Int) (db : DB) (med : Medicine)
    (cons : Bool) (evs : List Event) :
    (sendNotificationFinish now db med cons evs).events = evs := by
  unfold sendNotificationFinish
  split
  · rfl
  · rfl

/-- The push step either adds no event or appends exactly one push-send
event at the end. -/
theorem sendNotificationPush_events_shape (env : Env) (now : Int) (db : DB)
    (med : Medicine) (cs : NotificationSettings) (ty msg : String) (cons : Bool)
    (evs : List Event) :
    (sendNotificationPush env now db med cs ty msg cons evs).events = evs ∨
    ∃ a b, (sendNotificationPush env now db med cs ty msg cons evs).events =
      evs ++ [Event.pushSend a b] := by
  unfold sendNotificationPush
  split
  · dsimp only
    split
    · next e heq =>
      right
      exact ⟨_, _, (sendNotificationCatch_spec env db med ty e _).1⟩
    · next u heq =>
      split
      · next e heq2 =>
        right
        exact ⟨_, _, (sendNotificationCatch_spec env db med ty e _).1⟩
      · next db2 heq2 =>
        right
        exact ⟨_, _, sendNotificationFinish_events now db2 med cons _⟩
  · left
    exact sendNotificationFinish_events now db med cons evs

/-- Every `sendNotification` event trace has one of four shapes: empty,
one email attempt, one push attempt, or an email attempt followed by a
push attempt.  In particular an email dispatch always precedes any push
dispatch within one call. -/
theorem sendNotification_events_shape (env : Env) (now : Int) (db : DB)
    (med : Medicine) (ty msg : String) (cons : Bool) :
    (sendNotification env now db med ty msg cons).events = [] ∨
    (∃ a b, (sendNotification env now db med ty msg cons).events =
      [Event.emailSend a b]) ∨
    (∃ a b, (sendNotification env now db med ty msg cons).events =
      [Event.pushSend a b]) ∨
    (∃ a b c d, (sendNotification env now db med ty msg cons).events =
      [Event.emailSend a b, Event.pushSend c d]) := by
  unfold sendNotification getNotificationSettings
  split
  · exact Or.inl (sendNotificationCatch_spec env db med ty nullSettingsMessage []).1
  · next cs heq =>
    split
    · dsimp only
      split
      · next e heq2 =>
        exact Or.inr (Or.inl ⟨_, _, (sendNotificationCatch_spec env db med ty e _).1⟩)
      · next u heq2 =>
        split
        · next e heq3 =>
          exact Or.inr (Or.inl ⟨_, _, (sendNotificationCatch_spec env db med ty e _).1⟩)
        · next db2 heq3 =>
          rcases sendNotificationPush_events_shape env now db2 med cs ty msg cons
              [Event.emailSend (cs.email.getD "") msg] with h | ⟨a, b, h⟩
          · exact Or.inr (Or.inl ⟨_, _, h⟩)
          · exact Or.inr (Or.inr (Or.inr ⟨_, _, a, b, h⟩))
    · rcases sendNotificationPush_events_shape env now db med cs ty msg cons []
          with h | ⟨a, b, h⟩
      · exact Or.inl h
      · exact Or.inr (Or.inr (Or.inl ⟨a, b, by simpa using h⟩))

/-- When the Daily path finishes without error, every medicine record of
the resulting table whose id belongs to the selection carries
`notified = true` and the stamped timestamp. -/
theorem processDaily_ok_marks (env : Env) (clock : Clock) (db : DB)
    (s : NotificationSettings)
    (hd : s.enableDailyNotifications = true)
    (hok : (processDailyNotifications env clock db s).result = Except.ok ()) :
    ∀ m2, m2 ∈ (processDailyNotifications env clock db s).db.medicines →
      m2.id ∈ (dailySelection db.medicines clock).map (fun x => x.id) →
      m2.notified = true ∧ m2.lastNotificationDate = some clock.now := by
  intro m2 hmem hid
  cases hsel : dailySelection db.medicines clock with
  | nil =>
    rw [hsel] at hid
    simp at hid
  | cons m rest =>
    rw [processDaily_enabled_nonempty env clock db s m rest hd hsel] at hok hmem
    cases hres : (sendNotification env clock.now db m "DAILY"
        (dailyMessage clock.now (m :: rest)) true).result with
    | error e =>
      rw [hres] at hok
      dsimp only at hok
      exact absurd hok (by simp)
    | ok u =>
      rw [hres] at hmem
      dsimp only at hmem
      rw [hsel] at hid
      exact applyUpdateMany_marks _ _ _ m2 hmem hid

/-- The Weekly step of the cadence sequence preserves the medicine
table. -/
theorem weeklyStep_medicines (env : Env) (clock : Clock) (db : DB)
    (s : NotificationSettings) :
    (if s.enableWeeklyNotifications then processWeeklyNotifications env clock db s
     else { result := Except.ok (), db := db, events := [] }).db.medicines =
      db.medicines := by
  by_cases h : s.enableWeeklyNotifications = true
  · rw [if_pos h]
    exact (processWeekly_frame env clock db s).1
  · rw [if_neg h]

/-- The Monthly step of the cadence sequence preserves the medicine
table. -/
theorem monthlyStep_medicines (env : Env) (clock : Clock) (db : DB)
    (s : NotificationSettings) :
    (if s.enableMonthlyNotifications then processMonthlyNotifications env clock db s
     else { result := Except.ok (), db := db, events := [] }).db.medicines =
      db.medicines := by
  by_cases h : s.enableMonthlyNotifications = true
  · rw [if_pos h]
    exact (processMonthly_frame env clock db s).1
  · rw [if_neg h]

/-- The medicine table after the whole cadence sequence is the medicine
table after its Daily step: Weekly and Monthly touch nothing. -/
theorem processCadences_medicines (env : Env) (clock : Clock) (db : DB)
    (s : NotificationSettings) :
    (processCadences env clock db s).db.medicines =
      (if s.enableDailyNotifications then processDailyNotifications env clock db s
       else { result := Except.ok (), db := db, events := [] }).db.medicines := by
  unfold processCadences
  dsimp only
  split
  · rfl
  · split
    · next e heq =>
      exact weeklyStep_medicines env clock _ s
    · next u heq =>
      rw [monthlyStep_medicines env clock _ s]
      exact weeklyStep_medicines env clock _ s

/-- C1: for every settings record with daily notifications enabled, the
Daily path selects exactly the medicines whose expiry falls in
`[now, end-of-current-week]` and whose `notified` flag is false, ordered
ascending by expiry date, and after the consolidated send succeeds every
selected medicine has `notified = true` and a stamped
`lastNotificationDate`. -/
theorem daily_selection_and_marking_spec (env : Env) (clock : Clock) (db : DB)
    (s : NotificationSettings) (hd : s.enableDailyNotifications = true) :
    (∀ m, m ∈ dailySelection db.medicines clock ↔
      (m ∈ db.medicines ∧ clock.now ≤ m.expiryDate ∧
        m.expiryDate ≤ clock.endOfWeek ∧ m.notified = false)) ∧
    List.Sorted expiryLE (dailySelection db.medicines clock) ∧
    ((processDailyNotifications env clock db s).result = Except.ok () →
      ∀ m2, m2 ∈ (processDailyNotifications env clock db s).db.medicines →
        m2.id ∈ (dailySelection db.medicines clock).map (fun x => x.id) →
        m2.notified = true ∧ m2.lastNotificationDate = some clock.now) :=
  ⟨fun m => dailySelection_mem db.medicines clock m,
   dailySelection_sorted db.medicines clock,
   fun hok => processDaily_ok_marks env clock db s hd hok⟩

/-- Witness for the C1 theorem at a concrete input: email-only settings,
two unnotified medicines expiring this week, all external calls
succeeding. -/
theorem daily_selection_and_marking_spec_witness :
    settingsEmailOnly.enableDailyNotifications = true ∧
    ((∀ m, m ∈ dailySelection dbEmailOnly.medicines clockW ↔
      (m ∈ dbEmailOnly.medicines ∧ clockW.now ≤ m.expiryDate ∧
        m.expiryDate ≤ clockW.endOfWeek ∧ m.notified = false)) ∧
    List.Sorted expiryLE (dailySelection dbEmailOnly.medicines clockW) ∧
    ((processDailyNotifications envAllOk clockW dbEmailOnly settingsEmailOnly).result =
        Except.ok () →
      ∀ m2, m2 ∈ (processDailyNotifications envAllOk clockW dbEmailOnly
          settingsEmailOnly).db.medicines →
        m2.id ∈ (dailySelection dbEmailOnly.medicines clockW).map (fun x => x.id) →
        m2.notified = true ∧ m2.lastNotificationDate = some clockW.now)) :=
  ⟨rfl, daily_selection_and_marking_spec envAllOk clockW dbEmailOnly settingsEmailOnly rfl⟩

/-- C2: with a settings record present, the check cycle proceeds past the
time gate iff `forceCheck` is true or the absolute difference in minutes
between now and today's instant of the configured target time is at most
one; otherwise the cycle is a silent no-op. -/
theorem time_gate_spec (env : Env) (clock : Clock) (db : DB)
    (s : NotificationSettings) (force : Bool)
    (hs : db.settings = some s) :
    ((¬ (force = false ∧
        1 < diffInMinutes clock.timeOfDay s.targetHour s.targetMinute)) ↔
      (force = true ∨
        ((clock.timeOfDay.minutesOfDay : Int) -
          ((s.targetHour * 60 + s.targetMinute : Nat) : Int)).natAbs ≤ 1)) ∧
    ((force = true ∨
        ((clock.timeOfDay.minutesOfDay : Int) -
          ((s.targetHour * 60 + s.targetMinute : Nat) : Int)).natAbs ≤ 1) →
      checkAndSendNotifications env clock db force =
        processCadences env clock db s) ∧
    ((¬ (force = true ∨
        ((clock.timeOfDay.minutesOfDay : Int) -
          ((s.targetHour * 60 + s.targetMinute : Nat) : Int)).natAbs ≤ 1)) →
      checkAndSendNotifications env clock db force =
        { result := Except.ok (), db := db, events := [] }) := by
  have hdiff := diffInMinutes_eq clock.timeOfDay s.targetHour s.targetMinute
  have hiff : (¬ (force = false ∧
      1 < diffInMinutes clock.timeOfDay s.targetHour s.targetMinute)) ↔
      (force = true ∨
        ((clock.timeOfDay.minutesOfDay : Int) -
          ((s.targetHour * 60 + s.targetMinute : Nat) : Int)).natAbs ≤ 1) := by
    rw [hdiff]
    cases force
    · simp [Nat.not_lt]
    · simp
  refine ⟨hiff, ?_, ?_⟩
  · intro h
    unfold checkAndSendNotifications getNotificationSettings
    rw [hs]
    dsimp only
    rw [if_neg (hiff.mpr h)]
  · intro h
    unfold checkAndSendNotifications getNotificationSettings
    rw [hs]
    dsimp only
    rw [if_pos (by by_contra hc; exact h (hiff.mp hc))]

/-- Witness for the C2 theorem at a concrete input: 09:00:30.5 against a
09:00 target with no force flag. -/
theorem time_gate_spec_witness :
    dbEmailOnly.settings = some settingsEmailOnly ∧
    (((¬ (false = false ∧
        1 < diffInMinutes clockW.timeOfDay settingsEmailOnly.targetHour
          settingsEmailOnly.targetMinute)) ↔
      (false = true ∨
        ((clockW.timeOfDay.minutesOfDay : Int) -
          ((settingsEmailOnly.targetHour * 60 + settingsEmailOnly.targetMinute : Nat) :
            Int)).natAbs ≤ 1)) ∧
    ((false = true ∨
        ((clockW.timeOfDay.minutesOfDay : Int) -
          ((settingsEmailOnly.targetHour * 60 + settingsEmailOnly.targetMinute : Nat) :
            Int)).natAbs ≤ 1) →
      checkAndSendNotifications envAllOk clockW dbEmailOnly false =
        processCadences envAllOk clockW dbEmailOnly settingsEmailOnly) ∧
    ((¬ (false = true ∨
        ((clockW.timeOfDay.minutesOfDay : Int) -
          ((settingsEmailOnly.targetHour * 60 + settingsEmailOnly.targetMinute : Nat) :
            Int)).natAbs ≤ 1)) →
      checkAndSendNotifications envAllOk clockW dbEmailOnly false =
        { result := Except.ok (), db := dbEmailOnly, events := [] })) :=
  ⟨rfl, time_gate_spec envAllOk clockW dbEmailOnly settingsEmailOnly false rfl⟩

/-- C3: within every `sendNotification` call email dispatch is attempted
before push dispatch; a channel failure is logged as a failed entry and
re-raised, aborting the remaining channel and state-update steps; and when
the Daily email send throws, the selected medicines stay unmarked. -/
theorem send_channel_order_and_failure_spec (env : Env) (clock : Clock) (db : DB)
    (s cs : NotificationSettings) (med : Medicine) (now : Int)
    (ty msg : String) (cons : Bool) (e : String)
    (hlog : ∀ entry, env.logResult entry = Except.ok ()) :
    List.Pairwise (fun a b => ¬(Event.isPush a = true ∧ Event.isEmail b = true))
      (sendNotification env now db med ty msg cons).events ∧
    (db.settings = some cs →
      (cs.enableEmailNotifications && jsTruthy cs.email) = true →
      env.emailResult = Except.error e →
      (sendNotification env now db med ty msg cons).result = Except.error e ∧
      (sendNotification env now db med ty msg cons).db.medicines = db.medicines ∧
      (sendNotification env now db med ty msg cons).db.logs = db.logs ++
        [{ medicineId := med.id, type := ty, channel := "EMAIL", status := "failed",
           message := e, email := cs.email }] ∧
      (∀ ev, ev ∈ (sendNotification env now db med ty msg cons).events →
        Event.isPush ev = false)) ∧
    (db.settings = some cs →
      env.emailResult = Except.ok () →
      (cs.enablePushNotifications && jsTruthy cs.endpoint) = true →
      env.pushResult = Except.error e →
      (sendNotification env now db med ty msg cons).result = Except.error e ∧
      (sendNotification env now db med ty msg cons).db.medicines = db.medicines ∧
      ∃ pre, (sendNotification env now db med ty msg cons).db.logs =
        db.logs ++ pre ++
          [{ medicineId := med.id, type := ty, channel := "EMAIL", status := "failed",
             message := e, email := cs.email }] ∧
        ∀ x, x ∈ pre → x.status = "success") ∧
    (db.settings = some cs →
      (cs.enableEmailNotifications && jsTruthy cs.email) = true →
      env.emailResult = Except.error e →
      (processDailyNotifications env clock db s).db.medicines = db.medicines) := by
  refine ⟨?_, ?_, ?_, ?_⟩
  · rcases sendNotification_events_shape env now db med ty msg cons with
      h | ⟨a, b, h⟩ | ⟨a, b, h⟩ | ⟨a, b, c, d, h⟩ <;> rw [h]
    · exact List.Pairwise.nil
    · exact List.pairwise_singleton _ _
    · exact List.pairwise_singleton _ _
    · refine List.Pairwise.cons ?_ (List.pairwise_singleton _ _)
      intro ev hev hcontra
      exact Bool.noConfusion hcontra.1
  · intro hset he hfail
    rw [sendNotification_emailFail env now db med ty msg cons cs e hset he hfail (hlog _)]
    refine ⟨rfl, rfl, rfl, ?_⟩
    intro ev hev
    have hev2 : ev = Event.emailSend (cs.email.getD "") msg := by simpa using hev
    subst hev2
    rfl
  · intro hset hEok hp hpfail
    by_cases he : (cs.enableEmailNotifications && jsTruthy cs.email) = true
    · rw [sendNotification_pushFail_afterEmail env now db med ty msg cons cs e hset he
        hEok (hlog _) hp hpfail (hlog _)]
      refine ⟨rfl, rfl,
        [{ medicineId := med.id, type := ty, channel := "EMAIL", status := "success",
           message := msg, email := some (cs.email.getD "") }], by simp, ?_⟩
      intro x hx
      have hx2 : x =
          { medicineId := med.id, type := ty, channel := "EMAIL",
            status := "success", message := msg,
            email := some (cs.email.getD "") } := by
        simpa using hx
      subst hx2
      rfl
    · have he2 : (cs.enableEmailNotifications && jsTruthy cs.email) = false := by
        revert he
        cases cs.enableEmailNotifications && jsTruthy cs.email
        · intro _
          rfl
        · intro hcontra
          exact absurd rfl hcontra
      rw [sendNotification_pushFail_noEmail env now db med ty msg cons cs e hset he2
        hp hpfail (hlog _)]
      refine ⟨rfl, rfl, [], by simp, ?_⟩
      intro x hx
      simp at hx
  · intro hset he hfail
    by_cases hd : s.enableDailyNotifications = true
    · cases hsel : dailySelection db.medicines clock with
      | nil =>
        rw [processDaily_enabled_empty env clock db s hd hsel]
      | cons m rest =>
        rw [processDaily_enabled_nonempty env clock db s m rest hd hsel]
        rw [sendNotification_emailFail env clock.now db m "DAILY"
          (dailyMessage clock.now (m :: rest)) true cs e hset he hfail (hlog _)]
    · have hd2 : s.enableDailyNotifications = false := by
        revert hd
        cases s.enableDailyNotifications
        · intro _
          rfl
        · intro hcontra
          exact absurd rfl hcontra
      rw [processDaily_disabled env clock db s hd2]

/-- Witness for the C3 theorem at a concrete input: email-only settings
and a failing email send, with log persistence succeeding. -/
theorem send_channel_order_and_failure_spec_witness :
    (∀ entry, envEmailFail.logResult entry = Except.ok ()) ∧
    (List.Pairwise (fun a b => ¬(Event.isPush a = true ∧ Event.isEmail b = true))
      (sendNotification envEmailFail 0 dbOneEmail medA "DAILY" "msg" true).events ∧
    (dbOneEmail.settings = some settingsEmailOnly →
      (settingsEmailOnly.enableEmailNotifications &&
        jsTruthy settingsEmailOnly.email) = true →
      envEmailFail.emailResult = Except.error "smtp down" →
      (sendNotification envEmailFail 0 dbOneEmail medA "DAILY" "msg" true).result =
        Except.error "smtp down" ∧
      (sendNotification envEmailFail 0 dbOneEmail medA "DAILY" "msg" true).db.medicines =
        dbOneEmail.medicines ∧
      (sendNotification envEmailFail 0 dbOneEmail medA "DAILY" "msg" true).db.logs =
        dbOneEmail.logs ++
        [{ medicineId := medA.id, type := "DAILY", channel := "EMAIL",
           status := "failed", message := "smtp down",
           email := settingsEmailOnly.email }] ∧
      (∀ ev, ev ∈ (sendNotification envEmailFail 0 dbOneEmail medA "DAILY"
          "msg" true).events → Event.isPush ev = false)) ∧
    (dbOneEmail.settings = some settingsEmailOnly →
      envEmailFail.emailResult = Except.ok () →
      (settingsEmailOnly.enablePushNotifications &&
        jsTruthy settingsEmailOnly.endpoint) = true →
      envEmailFail.pushResult = Except.error "smtp down" →
      (sendNotification envEmailFail 0 dbOneEmail medA "DAILY" "msg" true).result =
        Except.error "smtp down" ∧
      (sendNotification envEmailFail 0 dbOneEmail medA "DAILY" "msg" true).db.medicines =
        dbOneEmail.medicines ∧
      ∃ pre, (sendNotification envEmailFail 0 dbOneEmail medA "DAILY"
          "msg" true).db.logs =
        dbOneEmail.logs ++ pre ++
          [{ medicineId := medA.id, type := "DAILY", channel := "EMAIL",
             status := "failed", message := "smtp down",
             email := settingsEmailOnly.email }] ∧
        ∀ x, x ∈ pre → x.status = "success") ∧
    (dbOneEmail.settings = some settingsEmailOnly →
      (settingsEmailOnly.enableEmailNotifications &&
        jsTruthy settingsEmailOnly.email) = true →
      envEmailFail.emailResult = Except.error "smtp down" →
      (processDailyNotifications envEmailFail clockW dbOneEmail
        settingsEmailOnly).db.medicines = dbOneEmail.medicines)) :=
  ⟨fun _ => rfl,
   send_channel_order_and_failure_spec envEmailFail clockW dbOneEmail
     settingsEmailOnly settingsEmailOnly medA 0 "DAILY" "msg" true "smtp down"
     (fun _ => rfl)⟩

/-- C4 counterexample: a non-empty Daily selection with email enabled and
a failing email send leaves the selected medicine unmarked — the claim
that selected medicines are marked `notified` regardless of per-channel
delivery failures is false on this input. -/
theorem daily_marking_on_failure_cex :
    dailySelection dbOneEmail.medicines clockW = [medA] ∧
    (processDailyNotifications envEmailFail clockW dbOneEmail
      settingsEmailOnly).result = Except.error "smtp down" ∧
    (processDailyNotifications envEmailFail clockW dbOneEmail
      settingsEmailOnly).db.medicines.map (fun m => m.notified) = [false] :=
  ⟨rfl, rfl, rfl⟩

/-- C4 amended: for every non-empty Daily selection the marking happens
after dispatch and only when the consolidated send returns without error;
when the send throws, the update is skipped and the medicine table is left
unchanged. -/
theorem daily_marking_after_success_only (env : Env) (clock : Clock) (db : DB)
    (s : NotificationSettings) (hd : s.enableDailyNotifications = true) :
    ((processDailyNotifications env clock db s).result = Except.ok () →
      ∀ m2, m2 ∈ (processDailyNotifications env clock db s).db.medicines →
        m2.id ∈ (dailySelection db.medicines clock).map (fun x => x.id) →
        m2.notified = true ∧ m2.lastNotificationDate = some clock.now) ∧
    (∀ m rest, dailySelection db.medicines clock = m :: rest →
      (sendNotification env clock.now db m "DAILY"
        (dailyMessage clock.now (m :: rest)) true).result ≠ Except.ok () →
      (processDailyNotifications env clock db s).db.medicines = db.medicines) := by
  refine ⟨fun hok => processDaily_ok_marks env clock db s hd hok, ?_⟩
  intro m rest hsel hfail
  rw [processDaily_enabled_nonempty env clock db s m rest hd hsel]
  cases hres : (sendNotification env clock.now db m "DAILY"
      (dailyMessage clock.now (m :: rest)) true).result with
  | error e =>
    dsimp only
    exact (sendNotification_consolidated_frame env clock.now db m "DAILY" _).1
  | ok u =>
    exact absurd hres hfail

/-- Witness for the amended C4 theorem at a concrete input: email-only
settings with a failing email send. -/
theorem daily_marking_after_success_only_witness :
    settingsEmailOnly.enableDailyNotifications = true ∧
    (((processDailyNotifications envEmailFail clockW dbOneEmail
        settingsEmailOnly).result = Except.ok () →
      ∀ m2, m2 ∈ (processDailyNotifications envEmailFail clockW dbOneEmail
          settingsEmailOnly).db.medicines →
        m2.id ∈ (dailySelection dbOneEmail.medicines clockW).map (fun x => x.id) →
        m2.notified = true ∧ m2.lastNotificationDate = some clockW.now) ∧
    (∀ m rest, dailySelection dbOneEmail.medicines clockW = m :: rest →
      (sendNotification envEmailFail clockW.now dbOneEmail m "DAILY"
        (dailyMessage clockW.now (m :: rest)) true).result ≠ Except.ok () →
      (processDailyNotifications envEmailFail clockW dbOneEmail
        settingsEmailOnly).db.medicines = dbOneEmail.medicines)) :=
  ⟨rfl, daily_marking_after_success_only envEmailFail clockW dbOneEmail
    settingsEmailOnly rfl⟩

/-- C5: the Weekly path dispatches only on Monday and the Monthly path
only on the 1st of the month — on any other day they return immediately
without querying medicines — and for every cadence an empty selection
produces zero dispatch calls and zero log entries. -/
theorem cadence_gating_and_empty_selection_spec (env : Env) (clock : Clock)
    (db : DB) (s : NotificationSettings) :
    (clock.dayOfWeek ≠ 1 → processWeeklyNotifications env clock db s =
      { result := Except.ok (), db := db, events := [] }) ∧
    (clock.dayOfMonth ≠ 1 → processMonthlyNotifications env clock db s =
      { result := Except.ok (), db := db, events := [] }) ∧
    (dailySelection db.medicines clock = [] →
      (processDailyNotifications env clock db s).db = db ∧
      ∀ e, e ∈ (processDailyNotifications env clock db s).events →
        e = Event.queryMedicines) ∧
    (weeklySelection db.medicines clock = [] →
      (processWeeklyNotifications env clock db s).db = db ∧
      ∀ e, e ∈ (processWeeklyNotifications env clock db s).events →
        e = Event.queryMedicines) ∧
    (monthlySelection db.medicines clock = [] →
      (processMonthlyNotifications env clock db s).db = db ∧
      ∀ e, e ∈ (processMonthlyNotifications env clock db s).events →
        e = Event.queryMedicines) :=
  ⟨fun hw => processWeekly_notMonday env clock db s hw,
   fun hm => processMonthly_notFirst env clock db s hm,
   fun hsel => processDaily_empty env clock db s hsel,
   fun hsel => processWeekly_empty env clock db s hsel,
   fun hsel => processMonthly_empty env clock db s hsel⟩

/-- Witness for the C5 theorem at a concrete input: a Wednesday the 15th
with an empty medicine table and every cadence enabled. -/
theorem cadence_gating_and_empty_selection_spec_witness :
    clockW.dayOfWeek ≠ 1 ∧ clockW.dayOfMonth ≠ 1 ∧
    dailySelection dbEmpty.medicines clockW = [] ∧
    weeklySelection dbEmpty.medicines clockW = [] ∧
    monthlySelection dbEmpty.medicines clockW = [] ∧
    processWeeklyNotifications envAllOk clockW dbEmpty settingsAllCadences =
      { result := Except.ok (), db := dbEmpty, events := [] } ∧
    processMonthlyNotifications envAllOk clockW dbEmpty settingsAllCadences =
      { result := Except.ok (), db := dbEmpty, events := [] } ∧
    ((processDailyNotifications envAllOk clockW dbEmpty settingsAllCadences).db =
      dbEmpty ∧
    ∀ e, e ∈ (processDailyNotifications envAllOk clockW dbEmpty
        settingsAllCadences).events → e = Event.queryMedicines) :=
  ⟨by decide, by decide, rfl, rfl, rfl,
   (cadence_gating_and_empty_selection_spec envAllOk clockW dbEmpty
     settingsAllCadences).1 (by decide),
   (cadence_gating_and_empty_selection_spec envAllOk clockW dbEmpty
     settingsAllCadences).2.1 (by decide),
   (cadence_gating_and_empty_selection_spec envAllOk clockW dbEmpty
     settingsAllCadences).2.2.1 rfl⟩

/-- C6 counterexample: with only the push channel configured and the push
send failing, the single failed log entry written by `sendNotification`
names channel `"EMAIL"`, not the push channel that failed — the claim
that the failed entry names the failing channel is false on this input. -/
theorem failed_log_channel_cex :
    (sendNotification envPushFail 0 dbPushOnly medA "DAILY" "msg" true).events =
      [Event.pushSend "https://ep" "msg"] ∧
    (sendNotification envPushFail 0 dbPushOnly medA "DAILY" "msg" true).result =
      Except.error "push down" ∧
    (sendNotification envPushFail 0 dbPushOnly medA "DAILY" "msg" true).db.logs.map
      (fun x => (x.channel, x.status)) = [("EMAIL", "failed")] ∧
    ("EMAIL" : String) ≠ "PUSH" :=
  ⟨rfl, rfl, rfl, by decide⟩

/-- C6 amended: every channel failure produces exactly one failed log
entry, but its channel field is always `"EMAIL"` regardless of which
channel failed; no success entry is written for the channel that failed in
that call. -/
theorem failed_log_always_email_spec (env : Env) (db : DB)
    (cs : NotificationSettings) (med : Medicine) (now : Int)
    (ty msg : String) (cons : Bool) (e : String)
    (hlog : ∀ entry, env.logResult entry = Except.ok ()) :
    (db.settings = some cs →
      (cs.enableEmailNotifications && jsTruthy cs.email) = true →
      env.emailResult = Except.error e →
      (sendNotification env now db med ty msg cons).db.logs = db.logs ++
        [{ medicineId := med.id, type := ty, channel := "EMAIL", status := "failed",
           message := e, email := cs.email }]) ∧
    (db.settings = some cs →
      env.emailResult = Except.ok () →
      (cs.enablePushNotifications && jsTruthy cs.endpoint) = true →
      env.pushResult = Except.error e →
      ∃ pre, (sendNotification env now db med ty msg cons).db.logs =
        db.logs ++ pre ++
          [{ medicineId := med.id, type := ty, channel := "EMAIL", status := "failed",
             message := e, email := cs.email }] ∧
        ∀ x, x ∈ pre → x.channel = "EMAIL" ∧ x.status = "success") := by
  constructor
  · intro hset he hfail
    rw [sendNotification_emailFail env now db med ty msg cons cs e hset he hfail (hlog _)]
  · intro hset hEok hp hpfail
    by_cases he : (cs.enableEmailNotifications && jsTruthy cs.email) = true
    · rw [sendNotification_pushFail_afterEmail env now db med ty msg cons cs e hset he
        hEok (hlog _) hp hpfail (hlog _)]
      refine ⟨[{ medicineId := med.id, type := ty, channel := "EMAIL",
                 status := "success", message := msg,
                 email := some (cs.email.getD "") }], by simp, ?_⟩
      intro x hx
      have hx2 : x =
          { medicineId := med.id, type := ty, channel := "EMAIL",
            status := "success", message := msg,
            email := some (cs.email.getD "") } := by
        simpa using hx
      subst hx2
      exact ⟨rfl, rfl⟩
    · have he2 : (cs.enableEmailNotifications && jsTruthy cs.email) = false := by
        revert he
        cases cs.enableEmailNotifications && jsTruthy cs.email
        · intro _
          rfl
        · intro hcontra
          exact absurd rfl hcontra
      rw [sendNotification_pushFail_noEmail env now db med ty msg cons cs e hset he2
        hp hpfail (hlog _)]
      refine ⟨[], by simp, ?_⟩
      intro x hx
      simp at hx

/-- Witness for the amended C6 theorem at a concrete input: push-only
settings, push send failing, log persistence succeeding. -/
theorem failed_log_always_email_spec_witness :
    (∀ entry, envPushFail.logResult entry = Except.ok ()) ∧
    ((dbPushOnly.settings = some settingsPushOnly →
      (settingsPushOnly.enableEmailNotifications &&
        jsTruthy settingsPushOnly.email) = true →
      envPushFail.emailResult = Except.error "push down" →
      (sendNotification envPushFail 0 dbPushOnly medA "DAILY" "msg" true).db.logs =
        dbPushOnly.logs ++
        [{ medicineId := medA.id, type := "DAILY", channel := "EMAIL",
           status := "failed", message := "push down",
           email := settingsPushOnly.email }]) ∧
    (dbPushOnly.settings = some settingsPushOnly →
      envPushFail.emailResult = Except.ok () →
      (settingsPushOnly.enablePushNotifications &&
        jsTruthy settingsPushOnly.endpoint) = true →
      envPushFail.pushResult = Except.error "push down" →
      ∃ pre, (sendNotification envPushFail 0 dbPushOnly medA "DAILY"
          "msg" true).db.logs =
        dbPushOnly.logs ++ pre ++
          [{ medicineId := medA.id, type := "DAILY", channel := "EMAIL",
             status := "failed", message := "push down",
             email := settingsPushOnly.email }] ∧
        ∀ x, x ∈ pre → x.channel = "EMAIL" ∧ x.status = "success")) :=
  ⟨fun _ => rfl,
   failed_log_always_email_spec envPushFail dbPushOnly settingsPushOnly medA 0
     "DAILY" "msg" true "push down" (fun _ => rfl)⟩

/-- C7: the Weekly and Monthly paths never mutate any medicine record;
across every check cycle a medicine record can change only in its
`notified` flag and `lastNotificationDate` (all other fields and the
table layout are preserved), and with the Daily cadence disabled the
whole cycle leaves the medicine table untouched. -/
theorem weekly_monthly_frame_spec (env : Env) (clock : Clock) (db : DB)
    (s : NotificationSettings) (force : Bool) :
    (processWeeklyNotifications env clock db s).db.medicines = db.medicines ∧
    (processMonthlyNotifications env clock db s).db.medicines = db.medicines ∧
    List.Forall₂ sameCore db.medicines
      (checkAndSendNotifications env clock db force).db.medicines ∧
    (db.settings = some s → s.enableDailyNotifications = false →
      (checkAndSendNotifications env clock db force).db.medicines = db.medicines) := by
  refine ⟨(processWeekly_frame env clock db s).1,
    (processMonthly_frame env clock db s).1, ?_, ?_⟩
  · unfold checkAndSendNotifications getNotificationSettings
    cases hset : db.settings with
    | none => exact forall2_sameCore_refl _
    | some s2 =>
      dsimp only
      split
      · exact forall2_sameCore_refl _
      · rw [processCadences_medicines env clock db s2]
        by_cases hd : s2.enableDailyNotifications = true
        · rw [if_pos hd]
          exact processDaily_forall2 env clock db s2
        · rw [if_neg hd]
          exact forall2_sameCore_refl _
  · intro hset hd
    unfold checkAndSendNotifications getNotificationSettings
    rw [hset]
    dsimp only
    split
    · rfl
    · rw [processCadences_medicines env clock db s]
      rw [if_neg (by rw [hd]; exact fun h => Bool.noConfusion h)]

/-- Witness for the C7 theorem at a concrete input: email-only settings
with only the Daily cadence enabled, all external calls succeeding. -/
theorem weekly_monthly_frame_spec_witness :
    dbEmailOnly.settings = some settingsEmailOnly ∧
    ((processWeeklyNotifications envAllOk clockW dbEmailOnly
      settingsEmailOnly).db.medicines = dbEmailOnly.medicines ∧
    (processMonthlyNotifications envAllOk clockW dbEmailOnly
      settingsEmailOnly).db.medicines = dbEmailOnly.medicines ∧
    List.Forall₂ sameCore dbEmailOnly.medicines
      (checkAndSendNotifications envAllOk clockW dbEmailOnly false).db.medicines ∧
    (dbEmailOnly.settings = some settingsEmailOnly →
      settingsEmailOnly.enableDailyNotifications = false →
      (checkAndSendNotifications envAllOk clockW dbEmailOnly
        false).db.medicines = dbEmailOnly.medicines)) :=
  ⟨rfl, weekly_monthly_frame_spec envAllOk clockW dbEmailOnly settingsEmailOnly false⟩

/-- C8 counterexample: both channels configured, email send succeeds, but
persisting the email success log entry throws — the push channel is never
attempted and the log error becomes the call's error, so a log-writer
failure does block the remaining dispatch flow. -/
theorem log_failure_aborts_cex :
    settingsBoth.enablePushNotifications = true ∧
    (sendNotification envLogFail 0 dbBoth medA "DAILY" "msg" true).result =
      Except.error "db down" ∧
    (sendNotification envLogFail 0 dbBoth medA "DAILY" "msg" true).events =
      [Event.emailSend "a@x.com" "msg"] ∧
    (sendNotification envLogFail 0 dbBoth medA "DAILY" "msg" true).db.logs.map
      (fun x => (x.channel, x.status)) = [("EMAIL", "failed")] :=
  ⟨rfl, rfl, rfl, rfl⟩

/-- C8 amended: a throw from the log append inside `sendNotification` is
handled by the same catch as delivery errors: it aborts the remaining
channel and state-update steps of that call, writes one failed entry and
re-raises the log error to the caller in place of the delivery outcome. -/
theorem log_failure_behaves_like_delivery_failure (env : Env) (now : Int)
    (db : DB) (med : Medicine) (ty msg : String) (cons : Bool)
    (cs : NotificationSettings) (e : String)
    (hs : db.settings = some cs)
    (he : (cs.enableEmailNotifications && jsTruthy cs.email) = true)
    (hEmailOk : env.emailResult = Except.ok ())
    (hlogS : env.logResult
      { medicineId := med.id, type := ty, channel := "EMAIL", status := "success",
        message := msg, email := some (cs.email.getD "") } = Except.error e)
    (hlogF : env.logResult
      { medicineId := med.id, type := ty, channel := "EMAIL", status := "failed",
        message := e, email := cs.email } = Except.ok ()) :
    (sendNotification env now db med ty msg cons).result = Except.error e ∧
    (sendNotification env now db med ty msg cons).db.medicines = db.medicines ∧
    (sendNotification env now db med ty msg cons).db.logs = db.logs ++
      [{ medicineId := med.id, type := ty, channel := "EMAIL", status := "failed",
         message := e, email := cs.email }] ∧
    (sendNotification env now db med ty msg cons).events =
      [Event.emailSend (cs.email.getD "") msg] := by
  rw [sendNotification_logFail_afterEmail env now db med ty msg cons cs e hs he
    hEmailOk hlogS hlogF]
  exact ⟨rfl, rfl, rfl, rfl⟩

/-- Witness for the amended C8 theorem at a concrete input: both channels
configured, success-entry log writes failing. -/
theorem log_failure_behaves_like_delivery_failure_witness :
    dbBoth.settings = some settingsBoth ∧
    (settingsBoth.enableEmailNotifications && jsTruthy settingsBoth.email) = true ∧
    envLogFail.emailResult = Except.ok () ∧
    envLogFail.logResult
      { medicineId := medA.id, type := "DAILY", channel := "EMAIL",
        status := "success", message := "msg",
        email := some (settingsBoth.email.getD "") } = Except.error "db down" ∧
    envLogFail.logResult
      { medicineId := medA.id, type := "DAILY", channel := "EMAIL",
        status := "failed", message := "db down",
        email := settingsBoth.email } = Except.ok () ∧
    ((sendNotification envLogFail 0 dbBoth medA "DAILY" "msg" true).result =
      Except.error "db down" ∧
    (sendNotification envLogFail 0 dbBoth medA "DAILY" "msg" true).db.medicines =
      dbBoth.medicines ∧
    (sendNotification envLogFail 0 dbBoth medA "DAILY" "msg" true).db.logs =
      dbBoth.logs ++
      [{ medicineId := medA.id, type := "DAILY", channel := "EMAIL",
         status := "failed", message := "db down", email := settingsBoth.email }] ∧
    (sendNotification envLogFail 0 dbBoth medA "DAILY" "msg" true).events =
      [Event.emailSend (settingsBoth.email.getD "") "msg"]) :=
  ⟨rfl, rfl, rfl, rfl, rfl,
   log_failure_behaves_like_delivery_failure envLogFail 0 dbBoth medA "DAILY"
     "msg" true settingsBoth "db down" rfl rfl rfl rfl rfl⟩

/-- C9 counterexample: when the settings record is absent at the re-read
inside `sendNotification`, the call raises an error and writes a failed
log entry — it does not no-op silently as the claim states. -/
theorem settings_absent_reread_cex :
    dbNoSettings.settings = none ∧
    (sendNotification envAllOk 0 dbNoSettings medA "DAILY" "msg" true).result =
      Except.error nullSettingsMessage ∧
    (sendNotification envAllOk 0 dbNoSettings medA "DAILY" "msg" true).db.logs =
      [{ medicineId := 1, type := "DAILY", channel := "EMAIL", status := "failed",
         message := nullSettingsMessage, email := none }] :=
  ⟨rfl, rfl, rfl⟩

/-- C9 amended: settings absence at the start of the check cycle is a
silent no-op (no dispatch, no log entry, no medicine update), but settings
absence at the re-read inside `sendNotification` raises a TypeError that
is caught, logged as a failed `"EMAIL"` entry and re-raised; no dispatch
and no medicine update occur there either. -/
theorem settings_absent_behavior_spec (env : Env) (clock : Clock) (db : DB)
    (force : Bool) (med : Medicine) (now : Int) (ty msg : String) (cons : Bool)
    (hs : db.settings = none)
    (hlog : env.logResult
      { medicineId := med.id, type := ty, channel := "EMAIL", status := "failed",
        message := nullSettingsMessage, email := none } = Except.ok ()) :
    checkAndSendNotifications env clock db force =
      { result := Except.ok (), db := db, events := [] } ∧
    sendNotification env now db med ty msg cons =
      { result := Except.error nullSettingsMessage,
        db := { db with logs := db.logs ++
          [{ medicineId := med.id, type := ty, channel := "EMAIL",
             status := "failed", message := nullSettingsMessage, email := none }] },
        events := [] } := by
  constructor
  · unfold checkAndSendNotifications getNotificationSettings
    rw [hs]
  · exact sendNotification_settingsAbsent env now db med ty msg cons hs hlog

/-- Witness for the amended C9 theorem at a concrete input: a database
with no settings record, all external calls succeeding. -/
theorem settings_absent_behavior_spec_witness :
    dbNoSettings.settings = none ∧
    envAllOk.logResult
      { medicineId := medA.id, type := "DAILY", channel := "EMAIL",
        status := "failed", message := nullSettingsMessage, email := none } =
      Except.ok () ∧
    (checkAndSendNotifications envAllOk clockW dbNoSettings false =
      { result := Except.ok (), db := dbNoSettings, events := [] } ∧
    sendNotification envAllOk 0 dbNoSettings medA "DAILY" "msg" true =
      { result := Except.error nullSettingsMessage,
        db := { dbNoSettings with logs := dbNoSettings.logs ++
          [{ medicineId := medA.id, type := "DAILY", channel := "EMAIL",
             status := "failed", message := nullSettingsMessage, email := none }] },
        events := [] }) :=
  ⟨rfl, rfl,
   settings_absent_behavior_spec envAllOk clockW dbNoSettings false medA 0
     "DAILY" "msg" true rfl rfl⟩

/-- C10: for every non-empty Daily selection, if the re-fetched settings
have email disabled or no address, and push disabled or no endpoint, then
`sendNotification` dispatches on no channel and writes no log entry, yet
every selected medicine is still marked `notified = true` with a stamped
timestamp, so those medicines are never selected by the Daily path
again. -/
theorem no_channel_still_marks_notified (env : Env) (clock : Clock) (db : DB)
    (s cs : NotificationSettings) (m : Medicine) (rest : List Medicine)
    (hset : db.settings = some cs)
    (hd : s.enableDailyNotifications = true)
    (hemail : cs.enableEmailNotifications = false ∨ cs.email = none)
    (hpush : cs.enablePushNotifications = false ∨ cs.endpoint = none)
    (hsel : dailySelection db.medicines clock = m :: rest) :
    (processDailyNotifications env clock db s).result = Except.ok () ∧
    (processDailyNotifications env clock db s).events = [Event.queryMedicines] ∧
    (processDailyNotifications env clock db s).db.logs = db.logs ∧
    (∀ m2, m2 ∈ (processDailyNotifications env clock db s).db.medicines →
      m2.id ∈ (m :: rest).map (fun x => x.id) →
      m2.notified = true ∧ m2.lastNotificationDate = some clock.now) ∧
    (∀ clock2 m2,
      m2 ∈ dailySelection (processDailyNotifications env clock db s).db.medicines
        clock2 →
      m2.id ∉ (m :: rest).map (fun x => x.id)) := by
  have he : (cs.enableEmailNotifications && jsTruthy cs.email) = false := by
    rcases hemail with h | h
    · rw [h]
      rfl
    · rw [h]
      cases cs.enableEmailNotifications
      · rfl
      · rfl
  have hp : (cs.enablePushNotifications && jsTruthy cs.endpoint) = false := by
    rcases hpush with h | h
    · rw [h]
      rfl
    · rw [h]
      cases cs.enablePushNotifications
      · rfl
      · rfl
  have hsend := sendNotification_noChannel env clock.now db m "DAILY"
    (dailyMessage clock.now (m :: rest)) cs hset he hp
  rw [processDaily_enabled_nonempty env clock db s m rest hd hsel, hsend]
  dsimp only
  refine ⟨rfl, rfl, rfl, ?_, ?_⟩
  · intro m2 hm2 hid
    exact applyUpdateMany_marks db.medicines _ clock.now m2 hm2 hid
  · intro clock2 m2 hm2 hid
    have hmem := (dailySelection_mem _ clock2 m2).mp hm2
    have hmark := applyUpdateMany_marks db.medicines _ clock.now m2 hmem.1 hid
    have hfalse := hmem.2.2.2
    rw [hmark.1] at hfalse
    exact Bool.noConfusion hfalse

/-- Witness for the C10 theorem at a concrete input: Daily enabled with
no channel configured and one unnotified medicine expiring this week. -/
theorem no_channel_still_marks_notified_witness :
    dbNoChannel.settings = some settingsNoChannel ∧
    settingsNoChannel.enableDailyNotifications = true ∧
    (settingsNoChannel.enableEmailNotifications = false ∨
      settingsNoChannel.email = none) ∧
    (settingsNoChannel.enablePushNotifications = false ∨
      settingsNoChannel.endpoint = none) ∧
    dailySelection dbNoChannel.medicines clockW = [medA] ∧
    ((processDailyNotifications envAllOk clockW dbNoChannel
        settingsNoChannel).result = Except.ok () ∧
    (processDailyNotifications envAllOk clockW dbNoChannel
        settingsNoChannel).events = [Event.queryMedicines] ∧
    (processDailyNotifications envAllOk clockW dbNoChannel
        settingsNoChannel).db.logs = dbNoChannel.logs ∧
    (∀ m2, m2 ∈ (processDailyNotifications envAllOk clockW dbNoChannel
        settingsNoChannel).db.medicines →
      m2.id ∈ ([medA] : List Medicine).map (fun x => x.id) →
      m2.notified = true ∧ m2.lastNotificationDate = some clockW.now) ∧
    (∀ clock2 m2,
      m2 ∈ dailySelection (processDailyNotifications envAllOk clockW dbNoChannel
        settingsNoChannel).db.medicines clock2 →
      m2.id ∉ ([medA] : List Medicine).map (fun x => x.id))) :=
  ⟨rfl, rfl, Or.inl rfl, Or.inl rfl, rfl,
   no_channel_still_marks_notified envAllOk clockW dbNoChannel settingsNoChannel
     settingsNoChannel medA [] rfl rfl (Or.inl rfl) (Or.inl rfl) rfl⟩
